import Mathlib

/-!
Verification development for the document-to-PDF converter application
(`converter_app.py`).  The Python class `DocumentConverter` and the batch
worker `ConverterApp.run_conversion` are shallowly embedded below.  The host
environment (operating system name, importability of the `docx2pdf` library,
filesystem existence checks, `shutil.which` lookups, the behaviour of the
`docx2pdf.convert` call and of `subprocess.run`) is abstracted as a record of
oracles `PyEnv`; every embedded function is a pure, executable Lean function
of that record.
-/

set_option maxHeartbeats 1000000

namespace ConverterApp

/-- Exceptions that matter to the embedded code: Python's `ImportError` versus
any other exception (everything caught by a bare `except Exception`). -/
inductive PyErr where
  | importError
  | otherError
deriving DecidableEq, Repr

/-- Outcome of `subprocess.run(cmd, ...)`: either the child process completed
with an exit status and captured standard-error text, or the call itself
raised some other exception (for example `FileNotFoundError` when the
executable does not exist).  Standard error is modelled as the text obtained
after best-effort decoding of the captured bytes; byte-level decoding is
outside the embedding. -/
inductive RunResult where
  | completed (returncode : Nat) (stderr : String)
  | raised (msg : String)
deriving DecidableEq, Repr

/-- Host-environment oracles consulted by the Python code.
`system` is `platform.system()`; `docx2pdfImport` is the outcome of
`import docx2pdf`; `pathExists` is `os.path.exists`; `whichFinds c` is
`shutil.which(c) is not None`; `wordConvert` is the `docx2pdf.convert`
call (raising is modelled by `Except.error` carrying `str(e)`); `runProcess`
is `subprocess.run` on an argument vector. -/
structure PyEnv where
  system : String
  docx2pdfImport : Except PyErr Unit
  pathExists : String → Bool
  whichFinds : String → Bool
  wordConvert : String → String → Except String Unit
  runProcess : List String → RunResult

/-! ## Path helpers (`os.path` on POSIX-style separators)

The relevant `os.path` functions are `splitext`, `basename` and `dirname`;
they are embedded at the level of character lists, following the CPython
`posixpath` implementations (separator `/`, extension separator `.`). -/

/-- Python `str.rfind(c)`: index of the last occurrence of `c`, or `-1`. -/
def pyRfind (c : Char) (l : List Char) : Int :=
  match (l.enum.filter (fun p => p.2 = c)).getLast? with
  | some p => (p.1 : Int)
  | none => -1

/-- CPython `posixpath.splitext` on a character list: split at the last dot
of the last path component, unless every character between the last separator
and that dot is itself a dot (leading dots of the basename never start an
extension). -/
def splitextList (l : List Char) : List Char × List Char :=
  let sepIndex := pyRfind '/' l
  let dotIndex := pyRfind '.' l
  if sepIndex < dotIndex then
    let start := (sepIndex + 1).toNat
    let dot := dotIndex.toNat
    if ((l.drop start).take (dot - start)).any (fun c => c ≠ '.') then
      (l.take dot, l.drop dot)
    else
      (l, [])
  else
    (l, [])

/-- `os.path.splitext` on strings. -/
def splitext (p : String) : String × String :=
  let r := splitextList p.data
  (String.mk r.1, String.mk r.2)

/-- `os.path.basename`: everything after the last separator. -/
def basename (p : String) : String :=
  String.mk (p.data.drop (pyRfind '/' p.data + 1).toNat)

/-- `os.path.dirname`: everything up to and including the last separator,
with trailing separators stripped unless the result consists of separators
only. -/
def dirname (p : String) : String :=
  let i := (pyRfind '/' p.data + 1).toNat
  let head := p.data.take i
  if head ≠ [] ∧ ¬ head.all (fun c => c = '/') then
    String.mk ((head.reverse.dropWhile (fun c => c = '/')).reverse)
  else
    String.mk head

/-- Python `str.lower` restricted to ASCII letters, which covers every
extension string the program compares. -/
def asciiLowerChar (c : Char) : Char :=
  if 'A' ≤ c ∧ c ≤ 'Z' then Char.ofNat (c.toNat + 32) else c

/-- Lowercase a string, ASCII-wise (models `str.lower` on the ASCII
extensions this program handles). -/
def pyLower (s : String) : String :=
  String.mk (s.data.map asciiLowerChar)

/-! ## The `DocumentConverter` class -/

/-- Capability snapshot held by a `DocumentConverter` instance: the fields
set in `__init__`. -/
structure DocumentConverter where
  has_word : Bool
  libreoffice_path : Option String
  supported_extensions : List String
deriving DecidableEq, Repr

/-- The two conversion backends. -/
inductive Backend where
  | word
  | libre
deriving DecidableEq, Repr

/-- Result of one `convert_to_pdf` call: the `(success, message)` pair the
Python method returns, instrumented with the list of backends that were
actually invoked (in invocation order), so that "no backend is invoked"
claims are statable. -/
structure ConvOutcome where
  success : Bool
  message : String
  attempted : List Backend
deriving DecidableEq, Repr

/-- `DocumentConverter._check_word_installed`, kept `Except`-valued so that
the exception behaviour is visible: the `import docx2pdf` may raise, and the
method's `except ImportError` / `except Exception` clauses turn either
outcome into a normal `False` return.  A hypothetical unhandled exception
would appear as `Except.error`. -/
def _check_word_installed (env : PyEnv) : Except PyErr Bool :=
  if env.system ≠ "Windows" then
    Except.ok false
  else
    match env.docx2pdfImport with
    | Except.ok _ => Except.ok true
    | Except.error PyErr.importError => Except.ok false
    | Except.error PyErr.otherError => Except.ok false

/-- The fixed Windows install paths probed by `_find_libreoffice`. -/
def windowsLibrePaths : List String :=
  ["C:\\Program Files\\LibreOffice\\program\\soffice.exe",
   "C:\\Program Files (x86)\\LibreOffice\\program\\soffice.exe"]

/-- The fixed macOS install path probed by `_find_libreoffice`. -/
def darwinLibrePaths : List String :=
  ["/Applications/LibreOffice.app/Contents/MacOS/soffice"]

/-- `DocumentConverter._is_command_available`: `shutil.which(command)` is not
`None`. -/
def _is_command_available (env : PyEnv) (command : String) : Bool :=
  env.whichFinds command

/-- The `for path in paths_to_check: if os.path.exists(path): return path`
loop of `_find_libreoffice`, followed by its PATH fallback. -/
def findLibreLoop (env : PyEnv) : List String → Option String
  | [] => if _is_command_available env "soffice" then some "soffice" else none
  | p :: rest => if env.pathExists p then some p else findLibreLoop env rest

/-- `DocumentConverter._find_libreoffice`: on Windows and macOS probe the
fixed install paths (first existing wins) and fall back to the PATH lookup;
on any other system return the bare name `soffice` unconditionally. -/
def _find_libreoffice (env : PyEnv) : Option String :=
  if env.system = "Windows" then
    findLibreLoop env windowsLibrePaths
  else if env.system = "Darwin" then
    findLibreLoop env darwinLibrePaths
  else
    some "soffice"

/-- `DocumentConverter.__init__`: probe the environment and record the
capability snapshot.  The result is `Except`-valued because
`_check_word_installed` is; an exception escaping a probe would propagate
out of the constructor. -/
def DocumentConverter.init (env : PyEnv) : Except PyErr DocumentConverter :=
  match _check_word_installed env with
  | Except.error e => Except.error e
  | Except.ok hw =>
      Except.ok
        { has_word := hw
          libreoffice_path := _find_libreoffice env
          supported_extensions := [".docx", ".doc", ".odt", ".rtf"] }

/-- `DocumentConverter._convert_with_libreoffice`: build the headless command
line, run it with `check=True`, and map the outcome: exit status 0 is
success, `CalledProcessError` (non-zero status) reports the captured standard
error, any other exception reports a generic message. -/
def _convert_with_libreoffice (env : PyEnv) (libreoffice_path : String)
    (input_path output_folder : String) : Bool × String :=
  let cmd := [libreoffice_path, "--headless", "--convert-to", "pdf",
              input_path, "--outdir", output_folder]
  match env.runProcess cmd with
  | RunResult.completed 0 _ =>
      (true, "Convertido com LibreOffice: " ++ basename input_path)
  | RunResult.completed _ stderr =>
      (false, "Erro LibreOffice: " ++ stderr)
  | RunResult.raised m =>
      (false, "Erro genérico LibreOffice: " ++ m)

/-- `DocumentConverter.convert_to_pdf`, instrumented with the list of
backends invoked.  The control flow mirrors the source: lowercase the
extension, reject unsupported extensions, prefer Word for `.docx`/`.doc`
when available (falling back to LibreOffice when the Word call raises and a
LibreOffice path is known), otherwise use LibreOffice when available, and
fail with the "no converter" message when neither backend applies. -/
def DocumentConverter.convert_to_pdf (self : DocumentConverter) (env : PyEnv)
    (input_path output_folder : String) : ConvOutcome :=
  let ext := pyLower (splitext input_path).2
  let filename := basename input_path
  if ext ∈ self.supported_extensions then
    let use_word := self.has_word && decide (ext ∈ [".docx", ".doc"])
    if use_word then
      match env.wordConvert input_path output_folder with
      | Except.ok _ =>
          ⟨true, "Convertido com Word: " ++ filename, [Backend.word]⟩
      | Except.error e =>
          match self.libreoffice_path with
          | some p =>
              let r := _convert_with_libreoffice env p input_path output_folder
              ⟨r.1, r.2, [Backend.word, Backend.libre]⟩
          | none =>
              ⟨false, "Erro Word: " ++ e, [Backend.word]⟩
    else
      match self.libreoffice_path with
      | some p =>
          let r := _convert_with_libreoffice env p input_path output_folder
          ⟨r.1, r.2, [Backend.libre]⟩
      | none =>
          ⟨false, "Nenhum conversor (Word ou LibreOffice) encontrado.", []⟩
  else
    ⟨false, "Extensão não suportada: " ++ ext, []⟩

/-! ## The batch worker `ConverterApp.run_conversion` -/

/-- One iteration of the worker loop: convert the file into its own
directory, bump the success count when the conversion succeeded, and append
the log entry. -/
def convStep (conv : DocumentConverter) (env : PyEnv)
    (acc : Nat × List (Bool × String)) (file_path : String) :
    Nat × List (Bool × String) :=
  let output_folder := dirname file_path
  let r := conv.convert_to_pdf env file_path output_folder
  (acc.1 + (if r.success then 1 else 0), acc.2 ++ [(r.success, r.message)])

/-- The per-file result the worker logs for one selected file. -/
def convResult (conv : DocumentConverter) (env : PyEnv) (file_path : String) :
    Bool × String :=
  let r := conv.convert_to_pdf env file_path (dirname file_path)
  (r.success, r.message)

/-- What `ConverterApp.run_conversion` produces: the ordered per-file log
entries, the success count, the total, and the final summary line. -/
structure BatchResult where
  logs : List (Bool × String)
  success_count : Nat
  total : Nat
  summary : String
deriving DecidableEq, Repr

/-- `ConverterApp.run_conversion`: iterate over the selected files in order,
convert each into its own directory, count successes, and emit the final
summary line. -/
def run_conversion (conv : DocumentConverter) (env : PyEnv)
    (selected_files : List String) : BatchResult :=
  let total := selected_files.length
  let r := selected_files.foldl (convStep conv env) (0, [])
  { logs := r.2
    success_count := r.1
    total := total
    summary := "Concluído! " ++ toString r.1 ++ "/" ++ toString total
               ++ " arquivos convertidos." }

end ConverterApp

namespace ConverterApp

/-! ## Concrete environments and snapshots used by the witness theorems -/

/-- A Linux-like host: `docx2pdf` not importable, no fixed install paths,
`soffice` on the PATH, headless runs succeed. -/
def envLinux : PyEnv :=
  { system := "Linux"
    docx2pdfImport := Except.error PyErr.importError
    pathExists := fun _ => false
    whichFinds := fun _ => true
    wordConvert := fun _ _ => Except.ok ()
    runProcess := fun _ => RunResult.completed 0 "" }

/-- A Windows-like host whose headless runs exit with status 1 and the
standard-error text `falha`, and whose `docx2pdf.convert` raises. -/
def envWinFail : PyEnv :=
  { system := "Windows"
    docx2pdfImport := Except.ok ()
    pathExists := fun _ => false
    whichFinds := fun _ => true
    wordConvert := fun _ _ => Except.error "COM indisponível"
    runProcess := fun _ => RunResult.completed 1 "falha" }

/-- A capability snapshot with only LibreOffice available and the standard
supported-extension list. -/
def convLibreOnly : DocumentConverter :=
  { has_word := false
    libreoffice_path := some "soffice"
    supported_extensions := [".docx", ".doc", ".odt", ".rtf"] }

/-- A capability snapshot with Word available and LibreOffice absent. -/
def convWordOnly : DocumentConverter :=
  { has_word := true
    libreoffice_path := none
    supported_extensions := [".docx", ".doc", ".odt", ".rtf"] }

/-- Written from the spec's selection policy (§4.2), for comparison with the
code: given the lowercased extension of a request that passed the supported
check, the backend the policy selects first — Word when Word is available
and the extension is `.docx`/`.doc`, else LibreOffice when a path is known,
else none. -/
def specSelectedBackend (self : DocumentConverter) (ext : String) :
    Option Backend :=
  if self.has_word = true ∧ ext ∈ [".docx", ".doc"] then some Backend.word
  else if self.libreoffice_path.isSome then some Backend.libre
  else none

/-! ## C3: unsupported extensions are rejected before any backend runs -/

/-- C3.  For every input path whose lowercased extension is outside the
supported list, `convert_to_pdf` returns failure with a message naming the
unsupported extension, and no backend is invoked, whatever the capability
snapshot says. -/
theorem c3_unsupported_rejected (self : DocumentConverter) (env : PyEnv)
    (input_path output_folder : String)
    (hsup : self.supported_extensions = [".docx", ".doc", ".odt", ".rtf"])
    (h : pyLower (splitext input_path).2 ∉ [".docx", ".doc", ".odt", ".rtf"]) :
    self.convert_to_pdf env input_path output_folder =
      ⟨false, "Extensão não suportada: " ++ pyLower (splitext input_path).2, []⟩ := by
  simp only [DocumentConverter.convert_to_pdf, hsup]
  rw [if_neg h]

/-- C3 witness: a `.txt` file is rejected with no backend attempted, even
with every backend available on the host. -/
theorem c3_unsupported_rejected_witness :
    convLibreOnly.convert_to_pdf envWinFail "relatorio.txt" "saida" =
      ⟨false, "Extensão não suportada: " ++ pyLower (splitext "relatorio.txt").2, []⟩ :=
  c3_unsupported_rejected convLibreOnly envWinFail "relatorio.txt" "saida"
    (by decide) (by decide)

/-! ## C5: the Word probe is Windows-gated -/

/-- C5.  `_check_word_installed` reports `true` exactly when the host system
is `Windows` and the `docx2pdf` import succeeds; on every other system it
reports `false` no matter how the import would go. -/
theorem c5_word_probe (env : PyEnv) :
    _check_word_installed env =
      Except.ok ((env.system == "Windows") && env.docx2pdfImport.isOk) := by
  unfold _check_word_installed
  by_cases hs : env.system = "Windows"
  · rw [if_neg (by simp [hs])]
    cases h : env.docx2pdfImport with
    | ok v => simp [hs, Except.isOk, Except.toBool]
    | error e => cases e <;> simp [hs, Except.isOk, Except.toBool]
  · rw [if_pos hs]
    have hb : (env.system == "Windows") = false := by simp [hs]
    rw [hb, Bool.false_and]

/-! ## C8: probing never raises -/

/-- C8.  Both capability probes return normally on every host environment:
`_check_word_installed` always yields `Except.ok` (its handlers catch both
`ImportError` and every other exception), `_find_libreoffice` is a total
`Option`-valued lookup, and hence the constructor `DocumentConverter.init`
always yields a capability snapshot rather than an error. -/
theorem c8_probes_return_normally (env : PyEnv) :
    (∃ b, _check_word_installed env = Except.ok b) ∧
    ((_find_libreoffice env = none) ∨ (∃ p, _find_libreoffice env = some p)) ∧
    (∃ conv, DocumentConverter.init env = Except.ok conv) := by
  have hcw : ∃ b, _check_word_installed env = Except.ok b := by
    unfold _check_word_installed
    by_cases hs : env.system ≠ "Windows"
    · exact ⟨false, by rw [if_pos hs]⟩
    · rw [if_neg hs]
      cases env.docx2pdfImport with
      | ok v => exact ⟨true, rfl⟩
      | error e => cases e <;> exact ⟨false, rfl⟩
  obtain ⟨b, hb⟩ := hcw
  refine ⟨⟨b, hb⟩, ?_, ?_⟩
  · cases h : _find_libreoffice env with
    | none => exact Or.inl rfl
    | some p => exact Or.inr ⟨p, rfl⟩
  · unfold DocumentConverter.init
    rw [hb]
    exact ⟨_, rfl⟩

/-! ## C4: headless invocation and result mapping -/

/-- C4.  `_convert_with_libreoffice` consults the process runner on exactly
the command line `<executable> --headless --convert-to pdf <input> --outdir
<dir>`; exit status 0 maps to success tagged with the LibreOffice backend,
a non-zero exit status maps to failure carrying the captured standard-error
text, and any other execution error maps to failure with the generic
message. -/
theorem c4_headless_result_mapping (env : PyEnv)
    (libre input_path output_folder : String) :
    (∀ stderr,
       env.runProcess [libre, "--headless", "--convert-to", "pdf",
                       input_path, "--outdir", output_folder] =
         RunResult.completed 0 stderr →
       _convert_with_libreoffice env libre input_path output_folder =
         (true, "Convertido com LibreOffice: " ++ basename input_path)) ∧
    (∀ n stderr,
       env.runProcess [libre, "--headless", "--convert-to", "pdf",
                       input_path, "--outdir", output_folder] =
         RunResult.completed n stderr → n ≠ 0 →
       _convert_with_libreoffice env libre input_path output_folder =
         (false, "Erro LibreOffice: " ++ stderr)) ∧
    (∀ m,
       env.runProcess [libre, "--headless", "--convert-to", "pdf",
                       input_path, "--outdir", output_folder] =
         RunResult.raised m →
       _convert_with_libreoffice env libre input_path output_folder =
         (false, "Erro genérico LibreOffice: " ++ m)) := by
  refine ⟨?_, ?_, ?_⟩
  · intro stderr hrun
    simp only [_convert_with_libreoffice]
    rw [hrun]
  · intro n stderr hrun hn
    simp only [_convert_with_libreoffice]
    rw [hrun]
    cases n with
    | zero => exact absurd rfl hn
    | succ k => rfl
  · intro m hrun
    simp only [_convert_with_libreoffice]
    rw [hrun]

/-- C4 witness: on a host whose headless converter exits with status 1 and
standard error `falha`, the conversion fails with that diagnostic text. -/
theorem c4_headless_result_mapping_witness :
    _convert_with_libreoffice envWinFail "soffice" "doc.odt" "saida" =
      (false, "Erro LibreOffice: " ++ "falha") :=
  (c4_headless_result_mapping envWinFail "soffice" "doc.odt" "saida").2.1
    1 "falha" rfl (by decide)

end ConverterApp

namespace ConverterApp

/-! ## Characterization of `convert_to_pdf` past the extension check -/

/-- Helper: once the lowercased extension passes the supported check,
`convert_to_pdf` is the Word/LibreOffice decision tree of the source. -/
theorem convert_eq_of_supported (self : DocumentConverter) (env : PyEnv)
    (input_path output_folder : String)
    (h : pyLower (splitext input_path).2 ∈ self.supported_extensions) :
    self.convert_to_pdf env input_path output_folder =
      if self.has_word && decide (pyLower (splitext input_path).2 ∈ [".docx", ".doc"]) then
        match env.wordConvert input_path output_folder with
        | Except.ok _ =>
            ⟨true, "Convertido com Word: " ++ basename input_path, [Backend.word]⟩
        | Except.error e =>
            match self.libreoffice_path with
            | some p =>
                ⟨(_convert_with_libreoffice env p input_path output_folder).1,
                 (_convert_with_libreoffice env p input_path output_folder).2,
                 [Backend.word, Backend.libre]⟩
            | none => ⟨false, "Erro Word: " ++ e, [Backend.word]⟩
      else
        match self.libreoffice_path with
        | some p =>
            ⟨(_convert_with_libreoffice env p input_path output_folder).1,
             (_convert_with_libreoffice env p input_path output_folder).2,
             [Backend.libre]⟩
        | none => ⟨false, "Nenhum conversor (Word ou LibreOffice) encontrado.", []⟩ := by
  simp only [DocumentConverter.convert_to_pdf]
  rw [if_pos h]

/-! ## C1: backend selection policy, first match wins -/

/-- C1.  For every request whose lowercased extension is supported: the Word
backend is attempted exactly when Word is available and the extension is
`.docx` or `.doc`; otherwise the LibreOffice backend is attempted whenever a
LibreOffice path is known (whatever the supported extension); and when
neither applies the call fails with the "no converter" message without
invoking any backend. -/
theorem c1_backend_selection (self : DocumentConverter) (env : PyEnv)
    (input_path output_folder : String)
    (h : pyLower (splitext input_path).2 ∈ self.supported_extensions) :
    (Backend.word ∈ (self.convert_to_pdf env input_path output_folder).attempted ↔
       self.has_word = true ∧ pyLower (splitext input_path).2 ∈ [".docx", ".doc"]) ∧
    (¬ (self.has_word = true ∧ pyLower (splitext input_path).2 ∈ [".docx", ".doc"]) →
       (∀ p, self.libreoffice_path = some p →
          (self.convert_to_pdf env input_path output_folder).attempted = [Backend.libre]) ∧
       (self.libreoffice_path = none →
          self.convert_to_pdf env input_path output_folder =
            ⟨false, "Nenhum conversor (Word ou LibreOffice) encontrado.", []⟩)) := by
  rw [convert_eq_of_supported self env input_path output_folder h]
  by_cases hw : self.has_word = true ∧ pyLower (splitext input_path).2 ∈ [".docx", ".doc"]
  · have hu : (self.has_word && decide (pyLower (splitext input_path).2 ∈ [".docx", ".doc"]))
        = true := by simp [hw.1, hw.2]
    rw [if_pos hu]
    refine ⟨?_, fun hnot => absurd hw hnot⟩
    cases env.wordConvert input_path output_folder with
    | ok v => exact iff_of_true (by simp) hw
    | error e =>
        cases self.libreoffice_path with
        | some p => exact iff_of_true (by simp) hw
        | none => exact iff_of_true (by simp) hw
  · have hu : (self.has_word && decide (pyLower (splitext input_path).2 ∈ [".docx", ".doc"]))
        = false := by
      cases h1 : self.has_word
      · simp
      · simp only [Bool.true_and, decide_eq_false_iff_not]
        exact fun hm => hw ⟨h1, hm⟩
    rw [if_neg (by rw [hu]; simp)]
    cases hlp : self.libreoffice_path with
    | some p =>
        refine ⟨iff_of_false (by simp) hw, fun _ => ⟨fun q hq => rfl, fun hq => ?_⟩⟩
        exact absurd hq (by simp)
    | none =>
        refine ⟨iff_of_false (by simp) hw,
                fun _ => ⟨fun q hq => absurd hq (by simp), fun _ => rfl⟩⟩

/-- C1 witness: an `.odt` request on a LibreOffice-only snapshot selects the
LibreOffice backend and never the Word backend. -/
theorem c1_backend_selection_witness :
    (Backend.word ∈ (convLibreOnly.convert_to_pdf envLinux "doc.odt" "saida").attempted ↔
       convLibreOnly.has_word = true ∧ pyLower (splitext "doc.odt").2 ∈ [".docx", ".doc"]) ∧
    (¬ (convLibreOnly.has_word = true ∧ pyLower (splitext "doc.odt").2 ∈ [".docx", ".doc"]) →
       (∀ p, convLibreOnly.libreoffice_path = some p →
          (convLibreOnly.convert_to_pdf envLinux "doc.odt" "saida").attempted = [Backend.libre]) ∧
       (convLibreOnly.libreoffice_path = none →
          convLibreOnly.convert_to_pdf envLinux "doc.odt" "saida" =
            ⟨false, "Nenhum conversor (Word ou LibreOffice) encontrado.", []⟩)) :=
  c1_backend_selection convLibreOnly envLinux "doc.odt" "saida" (by decide)

/-! ## C2: Word failure falls back to LibreOffice exactly when available -/

/-- C2.  When the Word backend is attempted (Word available, `.docx`/`.doc`
extension) and the automation call raises: with a LibreOffice path known the
call returns the LibreOffice outcome for the same request (both backends
attempted, in order); with no LibreOffice path it fails with a message
carrying the underlying error text and LibreOffice is never attempted. -/
theorem c2_word_failure_fallback (self : DocumentConverter) (env : PyEnv)
    (input_path output_folder e : String)
    (hsup : self.supported_extensions = [".docx", ".doc", ".odt", ".rtf"])
    (hw : self.has_word = true)
    (hext : pyLower (splitext input_path).2 ∈ [".docx", ".doc"])
    (herr : env.wordConvert input_path output_folder = Except.error e) :
    (∀ p, self.libreoffice_path = some p →
       self.convert_to_pdf env input_path output_folder =
         ⟨(_convert_with_libreoffice env p input_path output_folder).1,
          (_convert_with_libreoffice env p input_path output_folder).2,
          [Backend.word, Backend.libre]⟩) ∧
    (self.libreoffice_path = none →
       self.convert_to_pdf env input_path output_folder =
         ⟨false, "Erro Word: " ++ e, [Backend.word]⟩) := by
  have h : pyLower (splitext input_path).2 ∈ self.supported_extensions := by
    rw [hsup]
    simp only [List.mem_cons, List.not_mem_nil, or_false] at hext ⊢
    tauto
  rw [convert_eq_of_supported self env input_path output_folder h]
  have hu : (self.has_word && decide (pyLower (splitext input_path).2 ∈ [".docx", ".doc"]))
      = true := by simp [hw, hext]
  rw [if_pos hu, herr]
  exact ⟨fun p hp => by rw [hp], fun hp => by rw [hp]⟩

/-- C2 witness: on a Word-only snapshot where the Word call raises, the
request fails with the underlying error text and LibreOffice is never
attempted. -/
theorem c2_word_failure_fallback_witness :
    (∀ p, convWordOnly.libreoffice_path = some p →
       convWordOnly.convert_to_pdf envWinFail "doc.docx" "saida" =
         ⟨(_convert_with_libreoffice envWinFail p "doc.docx" "saida").1,
          (_convert_with_libreoffice envWinFail p "doc.docx" "saida").2,
          [Backend.word, Backend.libre]⟩) ∧
    (convWordOnly.libreoffice_path = none →
       convWordOnly.convert_to_pdf envWinFail "doc.docx" "saida" =
         ⟨false, "Erro Word: " ++ "COM indisponível", [Backend.word]⟩) :=
  c2_word_failure_fallback convWordOnly envWinFail "doc.docx" "saida" "COM indisponível"
    (by decide) (by decide) (by decide) rfl

/-! ## C6: LibreOffice path resolution order -/

/-- Helper: the probe loop returns the first existing path of the list, and
otherwise falls back to the PATH lookup of the bare name. -/
theorem findLibreLoop_eq (env : PyEnv) (l : List String) :
    findLibreLoop env l =
      match (l.filter env.pathExists).head? with
      | some p => some p
      | none => if env.whichFinds "soffice" then some "soffice" else none := by
  induction l with
  | nil => rfl
  | cons p rest ih =>
      cases hp : env.pathExists p
      · simp only [findLibreLoop, hp, Bool.false_eq_true, if_false, List.filter_cons, ih]
      · simp only [findLibreLoop, hp, if_true, List.filter_cons, List.head?_cons]

/-- C6.  On Windows the probe returns the first existing path of the fixed
ordered install-path list, on macOS the single fixed install path if it
exists; when those filesystem checks all fail it returns the bare name
`soffice` exactly when the PATH lookup resolves it, and `none` otherwise. -/
theorem c6_find_libreoffice_order (env : PyEnv) :
    (env.system = "Windows" →
       _find_libreoffice env =
         match (windowsLibrePaths.filter env.pathExists).head? with
         | some p => some p
         | none => if env.whichFinds "soffice" then some "soffice" else none) ∧
    (env.system = "Darwin" →
       _find_libreoffice env =
         match (darwinLibrePaths.filter env.pathExists).head? with
         | some p => some p
         | none => if env.whichFinds "soffice" then some "soffice" else none) := by
  constructor
  · intro hs
    unfold _find_libreoffice
    rw [if_pos hs]
    exact findLibreLoop_eq env windowsLibrePaths
  · intro hs
    unfold _find_libreoffice
    rw [if_neg (by rw [hs]; decide), if_pos hs]
    exact findLibreLoop_eq env darwinLibrePaths

/-- C6 witness: on a Windows host where neither install path exists but the
PATH lookup succeeds, the probe falls back to the bare name. -/
theorem c6_find_libreoffice_order_witness :
    _find_libreoffice envWinFail =
      match (windowsLibrePaths.filter envWinFail.pathExists).head? with
      | some p => some p
      | none => if envWinFail.whichFinds "soffice" then some "soffice" else none :=
  (c6_find_libreoffice_order envWinFail).1 rfl

end ConverterApp

namespace ConverterApp

/-! ## C7: batch processing -/

/-- Helper: unrolling the worker's fold — the success counter accumulates
the number of successful per-file results and the log grows by one entry
per file, in input order. -/
theorem convFoldl_eq (conv : DocumentConverter) (env : PyEnv) :
    ∀ (files : List String) (n : Nat) (acc : List (Bool × String)),
      files.foldl (convStep conv env) (n, acc) =
        (n + ((files.map (convResult conv env)).filter (fun r => r.1)).length,
         acc ++ files.map (convResult conv env)) := by
  intro files
  induction files with
  | nil =>
      intro n acc
      simp
  | cons f fs ih =>
      intro n acc
      rw [List.foldl_cons]
      have hstep : convStep conv env (n, acc) f =
          (n + (if (convResult conv env f).1 then 1 else 0),
           acc ++ [convResult conv env f]) := rfl
      rw [hstep, ih]
      simp only [List.map_cons, List.filter_cons, Prod.mk.injEq]
      constructor
      · cases hx : (convResult conv env f).1 <;> simp [hx]
        omega
      · simp

/-- Helper: every entry of a log is either a success or a failure, so the
two filtered lengths add up to the length of the log. -/
theorem filter_length_split (l : List (Bool × String)) :
    (l.filter (fun r => r.1)).length + (l.filter (fun r => !r.1)).length = l.length := by
  induction l with
  | nil => rfl
  | cons x xs ih =>
      simp only [List.filter_cons]
      cases hx : x.1 <;> simp [hx] <;> omega

/-- C7.  The worker converts all selected files sequentially in selection
order — one log entry per file, no file skipped after a failure — and the
final summary reports exactly (N − K) successes out of N, where K is the
number of failed conversions. -/
theorem c7_batch_processing (conv : DocumentConverter) (env : PyEnv)
    (files : List String) :
    (run_conversion conv env files).total = files.length ∧
    (run_conversion conv env files).logs = files.map (convResult conv env) ∧
    (run_conversion conv env files).success_count +
        ((files.map (convResult conv env)).filter (fun r => !r.1)).length
      = files.length ∧
    (run_conversion conv env files).success_count =
        ((files.map (convResult conv env)).filter (fun r => r.1)).length ∧
    (run_conversion conv env files).summary =
      "Concluído! " ++ toString (run_conversion conv env files).success_count
        ++ "/" ++ toString files.length ++ " arquivos convertidos." := by
  have hr := convFoldl_eq conv env files 0 []
  have hsplit := filter_length_split (files.map (convResult conv env))
  rw [List.length_map] at hsplit
  simp only [run_conversion, hr, List.nil_append, Nat.zero_add]
  exact ⟨by trivial, by trivial, hsplit, by trivial, by trivial⟩

/-! ## C9: extension matching is case-insensitive -/

/-- C9.  `convert_to_pdf` lowercases the extension before the supported
check: any input whose lowercased extension is supported is never rejected
as unsupported (a backend is dispatched, or only the no-converter failure
remains), and the backend dispatched first is the one the selection policy
assigns to the lowercase form of the extension. -/
theorem c9_case_insensitive_dispatch (self : DocumentConverter) (env : PyEnv)
    (input_path output_folder : String)
    (h : pyLower (splitext input_path).2 ∈ self.supported_extensions) :
    ((self.convert_to_pdf env input_path output_folder).attempted ≠ [] ∨
       (self.convert_to_pdf env input_path output_folder).message =
         "Nenhum conversor (Word ou LibreOffice) encontrado.") ∧
    (self.convert_to_pdf env input_path output_folder).attempted.head? =
      specSelectedBackend self (pyLower (splitext input_path).2) := by
  rw [convert_eq_of_supported self env input_path output_folder h]
  unfold specSelectedBackend
  by_cases hw : self.has_word = true ∧ pyLower (splitext input_path).2 ∈ [".docx", ".doc"]
  · have hu : (self.has_word && decide (pyLower (splitext input_path).2 ∈ [".docx", ".doc"]))
        = true := by simp [hw.1, hw.2]
    rw [if_pos hu, if_pos hw]
    cases env.wordConvert input_path output_folder with
    | ok v => exact ⟨Or.inl (by simp), rfl⟩
    | error e =>
        cases self.libreoffice_path with
        | some p => exact ⟨Or.inl (by simp), rfl⟩
        | none => exact ⟨Or.inl (by simp), rfl⟩
  · have hu : (self.has_word && decide (pyLower (splitext input_path).2 ∈ [".docx", ".doc"]))
        = false := by
      cases h1 : self.has_word
      · simp
      · simp only [Bool.true_and, decide_eq_false_iff_not]
        exact fun hm => hw ⟨h1, hm⟩
    rw [if_neg (by rw [hu]; simp), if_neg hw]
    cases self.libreoffice_path with
    | some p => exact ⟨Or.inl (by simp), rfl⟩
    | none => exact ⟨Or.inr rfl, rfl⟩

/-- C9 witness: an upper-case `.ODT` extension is dispatched to LibreOffice
exactly like its lowercase form. -/
theorem c9_case_insensitive_dispatch_witness :
    ((convLibreOnly.convert_to_pdf envLinux "Relatorio.ODT" "saida").attempted ≠ [] ∨
       (convLibreOnly.convert_to_pdf envLinux "Relatorio.ODT" "saida").message =
         "Nenhum conversor (Word ou LibreOffice) encontrado.") ∧
    (convLibreOnly.convert_to_pdf envLinux "Relatorio.ODT" "saida").attempted.head? =
      specSelectedBackend convLibreOnly (pyLower (splitext "Relatorio.ODT").2) :=
  c9_case_insensitive_dispatch convLibreOnly envLinux "Relatorio.ODT" "saida" (by decide)

/-! ## C10: hosts that are neither Windows nor macOS -/

/-- Helper: an unsupported-extension message never coincides with the
no-converter message, whatever the extension text is (their first
characters differ). -/
theorem extMsg_ne_noConverterMsg (ext : String) :
    ("Extensão não suportada: " ++ ext) ≠
      "Nenhum conversor (Word ou LibreOffice) encontrado." := by
  intro hcontra
  have h2 : ("Extensão não suportada: " ++ ext).data.head? =
      ("Nenhum conversor (Word ou LibreOffice) encontrado." : String).data.head? :=
    congrArg (fun s : String => s.data.head?) hcontra
  rw [String.data_append] at h2
  have h3 : (some 'E' : Option Char) = some 'N' := h2
  exact absurd (Option.some.inj h3) (by decide)

/-- C10.  On a host that is neither Windows nor macOS, the probe returns the
bare name `soffice` unconditionally (never `none`); so on the capability
snapshot built from such a host the no-converter failure of `convert_to_pdf`
is unreachable, and when the process runner itself raises (a genuinely
missing converter) the call surfaces the generic LibreOffice execution
error. -/
theorem c10_other_host_never_unavailable (env : PyEnv)
    (input_path output_folder : String)
    (h1 : env.system ≠ "Windows") (h2 : env.system ≠ "Darwin") :
    _find_libreoffice env = some "soffice" ∧
    (∀ conv, DocumentConverter.init env = Except.ok conv →
       conv.convert_to_pdf env input_path output_folder ≠
         ⟨false, "Nenhum conversor (Word ou LibreOffice) encontrado.", []⟩ ∧
       (∀ m, pyLower (splitext input_path).2 ∈ conv.supported_extensions →
          env.runProcess ["soffice", "--headless", "--convert-to", "pdf",
                          input_path, "--outdir", output_folder] = RunResult.raised m →
          conv.convert_to_pdf env input_path output_folder =
            ⟨false, "Erro genérico LibreOffice: " ++ m, [Backend.libre]⟩)) := by
  have hcw : _check_word_installed env = Except.ok false := by
    unfold _check_word_installed
    rw [if_pos h1]
  have hfind : _find_libreoffice env = some "soffice" := by
    unfold _find_libreoffice
    rw [if_neg h1, if_neg h2]
  refine ⟨hfind, ?_⟩
  intro conv hconv
  have hconv' : conv = { has_word := false
                         libreoffice_path := some "soffice"
                         supported_extensions := [".docx", ".doc", ".odt", ".rtf"] } := by
    unfold DocumentConverter.init at hconv
    rw [hcw, hfind] at hconv
    exact (Except.ok.inj hconv).symm
  subst hconv'
  constructor
  · by_cases hext : pyLower (splitext input_path).2 ∈ [".docx", ".doc", ".odt", ".rtf"]
    · rw [convert_eq_of_supported _ env input_path output_folder hext]
      rw [if_neg (by simp)]
      intro heq
      have hatt := congrArg ConvOutcome.attempted heq
      simp at hatt
    · simp only [DocumentConverter.convert_to_pdf]
      rw [if_neg hext]
      intro heq
      exact extMsg_ne_noConverterMsg _ (congrArg ConvOutcome.message heq)
  · intro m hsupm hrun
    rw [convert_eq_of_supported _ env input_path output_folder hsupm]
    rw [if_neg (by simp)]
    simp only [_convert_with_libreoffice]
    rw [hrun]

/-- C10 witness: on a Linux host the probe yields `soffice`, the
no-converter failure cannot occur, and a raising process runner surfaces as
the generic execution error. -/
theorem c10_other_host_never_unavailable_witness :
    _find_libreoffice envLinux = some "soffice" ∧
    (∀ conv, DocumentConverter.init envLinux = Except.ok conv →
       conv.convert_to_pdf envLinux "arquivo.xyz" "saida" ≠
         ⟨false, "Nenhum conversor (Word ou LibreOffice) encontrado.", []⟩ ∧
       (∀ m, pyLower (splitext "arquivo.xyz").2 ∈ conv.supported_extensions →
          envLinux.runProcess ["soffice", "--headless", "--convert-to", "pdf",
                               "arquivo.xyz", "--outdir", "saida"] = RunResult.raised m →
          conv.convert_to_pdf envLinux "arquivo.xyz" "saida" =
            ⟨false, "Erro genérico LibreOffice: " ++ m, [Backend.libre]⟩)) :=
  c10_other_host_never_unavailable envLinux "arquivo.xyz" "saida" (by decide) (by decide)

end ConverterApp
